import Mathlib

/-!
Verification of the aws_spot_fleet_request resource
(internal/service/ec2/ec2_spot_fleet_request.go).

This file shallowly embeds the CRUD functions of the resource and the
launch_template_config expand/flatten field-mapper pair, and proves the
reconciler properties stated in the design spec against them.

Modelling conventions:
- Terraform attribute maps are embedded as Lean structures in which every
  schema key is present with its zero value when unset (this is how the
  plugin SDK materialises attribute maps), so GetOk corresponds to a
  comparison with the zero value.
- AWS wire structures use Option for nil-able pointer fields.
- float64 attribute values (priority, weighted_capacity, the Gbps and GiB
  ranges) are embedded as Rat: the source performs no arithmetic on them,
  only comparison with 0.0 and copying, and both are exact on any numeric
  carrier.
- Remote behaviour (API call results, wait outcomes, polled instance
  counts) is passed in as explicit parameters; the outcome structures
  record the wire calls each operation issued.
-/

namespace SpotFleetRequest

/-! ### Diagnostics (diag.Diagnostics / sdkdiag) -/

inductive Severity where
  | error
  | warning
  deriving DecidableEq, Repr

structure Diag where
  severity : Severity
  summary : String
  deriving DecidableEq, Repr

/-- sdkdiag.AppendErrorf appends an error-severity diagnostic. -/
def mkError (s : String) : Diag := ⟨Severity.error, s⟩

/-- A diagnostics list is fatal when it holds an error-severity entry. -/
def hasError (l : List Diag) : Bool := l.any (fun d => d.severity == Severity.error)

/-! ### Field mapper: launch_template_config (configuration side)

The configuration-side structures mirror the schema blocks under
launch_template_config.  A TypeList MaxItems 1 block is an Option, a
TypeSet of strings is a List String, and scalar attributes carry their
zero value when unset. -/

/-- A min/max sub-block of two TypeInt attributes (accelerator_count,
accelerator_total_memory_mib, baseline_ebs_bandwidth_mbps, memory_mib,
network_interface_count, vcpu_count). -/
structure IntRangeTF where
  max : Int
  min : Int
  deriving DecidableEq, Repr

/-- A min/max sub-block of two TypeFloat attributes (memory_gib_per_vcpu,
network_bandwidth_gbps, total_local_storage_gb). -/
structure RatRangeTF where
  max : Rat
  min : Rat
  deriving DecidableEq, Repr

/-- The instance_requirements block of a launch_template_config override,
as declared in the schema (file lines 407-696). -/
structure InstanceRequirementsTF where
  acceleratorCount : Option IntRangeTF
  acceleratorManufacturers : List String
  acceleratorNames : List String
  acceleratorTotalMemoryMib : Option IntRangeTF
  acceleratorTypes : List String
  allowedInstanceTypes : List String
  bareMetal : String
  baselineEbsBandwidthMbps : Option IntRangeTF
  burstablePerformance : String
  cpuManufacturers : List String
  excludedInstanceTypes : List String
  instanceGenerations : List String
  localStorage : String
  localStorageTypes : List String
  memoryGibPerVcpu : Option RatRangeTF
  memoryMib : Option IntRangeTF
  networkBandwidthGbps : Option RatRangeTF
  networkInterfaceCount : Option IntRangeTF
  onDemandMaxPricePercentageOverLowestPrice : Int
  requireHibernateSupport : Bool
  spotMaxPricePercentageOverLowestPrice : Int
  totalLocalStorageGb : Option RatRangeTF
  vcpuCount : Option IntRangeTF
  deriving DecidableEq, Repr

/-- An overrides block element (schema lines 396-747). -/
structure LaunchTemplateOverridesTF where
  availabilityZone : String
  instanceRequirements : Option InstanceRequirementsTF
  instanceType : String
  priority : Rat
  spotPrice : String
  subnetId : String
  weightedCapacity : Rat
  deriving DecidableEq, Repr

/-- A launch_template_specification block (schema lines 369-395). -/
structure FleetLaunchTemplateSpecificationTF where
  id : String
  name : String
  version : String
  deriving DecidableEq, Repr

/-- A launch_template_config set element (schema lines 363-753). -/
structure LaunchTemplateConfigTF where
  launchTemplateSpecification : Option FleetLaunchTemplateSpecificationTF
  overrides : List LaunchTemplateOverridesTF
  deriving DecidableEq, Repr

/-! ### Field mapper: launch_template_config (wire side)

Wire structures mirror the aws-sdk-go ec2 types; pointer fields are
Option, slice fields are List (nil and the empty slice coincide in every
code path embedded here). -/

structure IntRange where
  max : Option Int
  min : Option Int
  deriving DecidableEq, Repr

structure RatRange where
  max : Option Rat
  min : Option Rat
  deriving DecidableEq, Repr

structure InstanceRequirements where
  acceleratorCount : Option IntRange
  acceleratorManufacturers : Option (List String)
  acceleratorNames : Option (List String)
  acceleratorTotalMemoryMiB : Option IntRange
  acceleratorTypes : Option (List String)
  allowedInstanceTypes : Option (List String)
  bareMetal : Option String
  baselineEbsBandwidthMbps : Option IntRange
  burstablePerformance : Option String
  cpuManufacturers : Option (List String)
  excludedInstanceTypes : Option (List String)
  instanceGenerations : Option (List String)
  localStorage : Option String
  localStorageTypes : Option (List String)
  memoryGiBPerVCpu : Option RatRange
  memoryMiB : Option IntRange
  networkBandwidthGbps : Option RatRange
  networkInterfaceCount : Option IntRange
  onDemandMaxPricePercentageOverLowestPrice : Option Int
  requireHibernateSupport : Option Bool
  spotMaxPricePercentageOverLowestPrice : Option Int
  totalLocalStorageGB : Option RatRange
  vCpuCount : Option IntRange
  deriving DecidableEq, Repr

structure LaunchTemplateOverrides where
  availabilityZone : Option String
  instanceRequirements : Option InstanceRequirements
  instanceType : Option String
  priority : Option Rat
  spotPrice : Option String
  subnetId : Option String
  weightedCapacity : Option Rat
  deriving DecidableEq, Repr

structure FleetLaunchTemplateSpecification where
  launchTemplateId : Option String
  launchTemplateName : Option String
  version : Option String
  deriving DecidableEq, Repr

structure LaunchTemplateConfig where
  launchTemplateSpecification : Option FleetLaunchTemplateSpecification
  overrides : List LaunchTemplateOverrides
  deriving DecidableEq, Repr

/-! ### Expand (configuration to wire), from the source

Every expander below is translated line by line from
ec2_spot_fleet_request.go.  The source guards each assignment with
ok and v != zero-value; in the total-attribute-map embedding that guard
is exactly a comparison with the zero value.  The min/max sub-block
expanders assign Max and Min unconditionally (the source only checks the
type assertion, which always succeeds on a materialised block). -/

/-- Source lines 1692-1708. -/
def expandAcceleratorCount (t : IntRangeTF) : IntRange :=
  { max := some t.max, min := some t.min }

/-- Source lines 1710-1726. -/
def expandAcceleratorTotalMemoryMiB (t : IntRangeTF) : IntRange :=
  { max := some t.max, min := some t.min }

/-- Source lines 1728-1744. -/
def expandBaselineEBSBandwidthMbps (t : IntRangeTF) : IntRange :=
  { max := some t.max, min := some t.min }

/-- Source lines 1746-1762. -/
def expandMemoryGiBPerVCPU (t : RatRangeTF) : RatRange :=
  { max := some t.max, min := some t.min }

/-- Source lines 1764-1780. -/
def expandMemoryMiB (t : IntRangeTF) : IntRange :=
  { max := some t.max, min := some t.min }

/-- Source lines 1782-1798. -/
def expandNetworkInterfaceCount (t : IntRangeTF) : IntRange :=
  { max := some t.max, min := some t.min }

/-- Source lines 1800-1816. -/
def expandTotalLocalStorageGB (t : RatRangeTF) : RatRange :=
  { max := some t.max, min := some t.min }

/-- Source lines 1818-1834. -/
def expandVCPUCountRange (t : IntRangeTF) : IntRange :=
  { max := some t.max, min := some t.min }

/-- Source lines 1594-1690.  Note: the source function never reads the
schema attribute network_bandwidth_gbps (schema lines 610-631), so the
wire field NetworkBandwidthGbps below is always left nil. -/
def expandInstanceRequirements (t : InstanceRequirementsTF) : InstanceRequirements :=
  { acceleratorCount := t.acceleratorCount.map expandAcceleratorCount
    acceleratorManufacturers :=
      if t.acceleratorManufacturers ≠ [] then some t.acceleratorManufacturers else none
    acceleratorNames :=
      if t.acceleratorNames ≠ [] then some t.acceleratorNames else none
    acceleratorTotalMemoryMiB := t.acceleratorTotalMemoryMib.map expandAcceleratorTotalMemoryMiB
    acceleratorTypes :=
      if t.acceleratorTypes ≠ [] then some t.acceleratorTypes else none
    allowedInstanceTypes :=
      if t.allowedInstanceTypes ≠ [] then some t.allowedInstanceTypes else none
    bareMetal := if t.bareMetal ≠ "" then some t.bareMetal else none
    baselineEbsBandwidthMbps := t.baselineEbsBandwidthMbps.map expandBaselineEBSBandwidthMbps
    burstablePerformance :=
      if t.burstablePerformance ≠ "" then some t.burstablePerformance else none
    cpuManufacturers :=
      if t.cpuManufacturers ≠ [] then some t.cpuManufacturers else none
    excludedInstanceTypes :=
      if t.excludedInstanceTypes ≠ [] then some t.excludedInstanceTypes else none
    instanceGenerations :=
      if t.instanceGenerations ≠ [] then some t.instanceGenerations else none
    localStorage := if t.localStorage ≠ "" then some t.localStorage else none
    localStorageTypes :=
      if t.localStorageTypes ≠ [] then some t.localStorageTypes else none
    memoryGiBPerVCpu := t.memoryGibPerVcpu.map expandMemoryGiBPerVCPU
    memoryMiB := t.memoryMib.map expandMemoryMiB
    networkBandwidthGbps := none
    networkInterfaceCount := t.networkInterfaceCount.map expandNetworkInterfaceCount
    onDemandMaxPricePercentageOverLowestPrice :=
      if t.onDemandMaxPricePercentageOverLowestPrice ≠ 0 then
        some t.onDemandMaxPricePercentageOverLowestPrice
      else none
    requireHibernateSupport :=
      if t.requireHibernateSupport then some t.requireHibernateSupport else none
    spotMaxPricePercentageOverLowestPrice :=
      if t.spotMaxPricePercentageOverLowestPrice ≠ 0 then
        some t.spotMaxPricePercentageOverLowestPrice
      else none
    totalLocalStorageGB := t.totalLocalStorageGb.map expandTotalLocalStorageGB
    vCpuCount := t.vcpuCount.map expandVCPUCountRange }

/-- Source lines 1530-1566. -/
def expandLaunchTemplateOverrides (t : LaunchTemplateOverridesTF) : LaunchTemplateOverrides :=
  { availabilityZone := if t.availabilityZone ≠ "" then some t.availabilityZone else none
    instanceRequirements := t.instanceRequirements.map expandInstanceRequirements
    instanceType := if t.instanceType ≠ "" then some t.instanceType else none
    priority := if t.priority ≠ 0 then some t.priority else none
    spotPrice := if t.spotPrice ≠ "" then some t.spotPrice else none
    subnetId := if t.subnetId ≠ "" then some t.subnetId else none
    weightedCapacity := if t.weightedCapacity ≠ 0 then some t.weightedCapacity else none }

/-- Source lines 1568-1592.  The source returns nil for an empty list and
skips elements that are not maps or expand to nil; in the typed embedding
neither skip can fire, leaving a plain map. -/
def expandLaunchTemplateOverrideses (l : List LaunchTemplateOverridesTF) :
    List LaunchTemplateOverrides :=
  l.map expandLaunchTemplateOverrides

/-- Source lines 1508-1528. -/
def expandFleetLaunchTemplateSpecification (t : FleetLaunchTemplateSpecificationTF) :
    FleetLaunchTemplateSpecification :=
  { launchTemplateId := if t.id ≠ "" then some t.id else none
    launchTemplateName := if t.name ≠ "" then some t.name else none
    version := if t.version ≠ "" then some t.version else none }

/-- Source lines 1464-1480. -/
def expandLaunchTemplateConfig (t : LaunchTemplateConfigTF) : LaunchTemplateConfig :=
  { launchTemplateSpecification :=
      t.launchTemplateSpecification.map expandFleetLaunchTemplateSpecification
    overrides :=
      if t.overrides ≠ [] then expandLaunchTemplateOverrideses t.overrides else [] }

/-- Source lines 1482-1506. -/
def expandLaunchTemplateConfigs (l : List LaunchTemplateConfigTF) : List LaunchTemplateConfig :=
  l.map expandLaunchTemplateConfig

/-! ### Flatten (wire to configuration)

flattenLaunchTemplateConfig, flattenLaunchTemplateOverrides and
flattenFleetLaunchTemplateSpecificationForSpotFleetRequest are translated
from source lines 2119-2231: a tfMap key is written exactly when the wire
pointer is non-nil, and an absent key reads back as the zero value, which
the total-attribute-map embedding renders as Option.getD. -/

/-- Modelled from the spec: flattenInstanceRequirements and its sub-block
flatteners are code of this repository that is not under src (only their
caller, flattenLaunchTemplateOverrides at source line 2189, is).  Per the
spec the Field Mapper fromWire direction writes each configuration field
from the corresponding wire field; a nil wire pointer leaves the tfMap
key absent, i.e. the zero value. -/
def flattenIntRange (w : IntRange) : IntRangeTF :=
  { max := w.max.getD 0, min := w.min.getD 0 }

/-- Modelled from the spec: float-valued min/max counterpart of
flattenIntRange, see that comment. -/
def flattenRatRange (w : RatRange) : RatRangeTF :=
  { max := w.max.getD 0, min := w.min.getD 0 }

/-- Modelled from the spec: flattenInstanceRequirements is not under src;
each configuration attribute is written from its wire field when that
field is non-nil, the inverse direction of expandInstanceRequirements. -/
def flattenInstanceRequirements (w : InstanceRequirements) : InstanceRequirementsTF :=
  { acceleratorCount := w.acceleratorCount.map flattenIntRange
    acceleratorManufacturers := w.acceleratorManufacturers.getD []
    acceleratorNames := w.acceleratorNames.getD []
    acceleratorTotalMemoryMib := w.acceleratorTotalMemoryMiB.map flattenIntRange
    acceleratorTypes := w.acceleratorTypes.getD []
    allowedInstanceTypes := w.allowedInstanceTypes.getD []
    bareMetal := w.bareMetal.getD ""
    baselineEbsBandwidthMbps := w.baselineEbsBandwidthMbps.map flattenIntRange
    burstablePerformance := w.burstablePerformance.getD ""
    cpuManufacturers := w.cpuManufacturers.getD []
    excludedInstanceTypes := w.excludedInstanceTypes.getD []
    instanceGenerations := w.instanceGenerations.getD []
    localStorage := w.localStorage.getD ""
    localStorageTypes := w.localStorageTypes.getD []
    memoryGibPerVcpu := w.memoryGiBPerVCpu.map flattenRatRange
    memoryMib := w.memoryMiB.map flattenIntRange
    networkBandwidthGbps := w.networkBandwidthGbps.map flattenRatRange
    networkInterfaceCount := w.networkInterfaceCount.map flattenIntRange
    onDemandMaxPricePercentageOverLowestPrice :=
      w.onDemandMaxPricePercentageOverLowestPrice.getD 0
    requireHibernateSupport := w.requireHibernateSupport.getD false
    spotMaxPricePercentageOverLowestPrice :=
      w.spotMaxPricePercentageOverLowestPrice.getD 0
    totalLocalStorageGb := w.totalLocalStorageGB.map flattenRatRange
    vcpuCount := w.vCpuCount.map flattenIntRange }

/-- Source lines 2177-2213. -/
def flattenLaunchTemplateOverrides (w : LaunchTemplateOverrides) : LaunchTemplateOverridesTF :=
  { availabilityZone := w.availabilityZone.getD ""
    instanceRequirements := w.instanceRequirements.map flattenInstanceRequirements
    instanceType := w.instanceType.getD ""
    priority := w.priority.getD 0
    spotPrice := w.spotPrice.getD ""
    subnetId := w.subnetId.getD ""
    weightedCapacity := w.weightedCapacity.getD 0 }

/-- Source lines 2215-2231. -/
def flattenLaunchTemplateOverrideses (l : List LaunchTemplateOverrides) :
    List LaunchTemplateOverridesTF :=
  l.map flattenLaunchTemplateOverrides

/-- Source lines 2155-2175. -/
def flattenFleetLaunchTemplateSpecificationForSpotFleetRequest
    (w : FleetLaunchTemplateSpecification) : FleetLaunchTemplateSpecificationTF :=
  { id := w.launchTemplateId.getD ""
    name := w.launchTemplateName.getD ""
    version := w.version.getD "" }

/-- Source lines 2119-2135.  The source writes the overrides key only for
a non-nil slice; a nil slice reads back as the empty set, which
flattenLaunchTemplateOverrideses maps to the empty list as well. -/
def flattenLaunchTemplateConfig (w : LaunchTemplateConfig) : LaunchTemplateConfigTF :=
  { launchTemplateSpecification :=
      w.launchTemplateSpecification.map flattenFleetLaunchTemplateSpecificationForSpotFleetRequest
    overrides := flattenLaunchTemplateOverrideses w.overrides }

/-- Source lines 2137-2153. -/
def flattenLaunchTemplateConfigs (l : List LaunchTemplateConfig) : List LaunchTemplateConfigTF :=
  l.map flattenLaunchTemplateConfig

/-! ### spot_maintenance_strategies expanders -/

/-- A capacity_rebalance block (schema lines 790-805). -/
structure SpotCapacityRebalanceTF where
  replacementStrategy : String
  deriving DecidableEq, Repr

/-- A spot_maintenance_strategies block (schema lines 783-808).  The list
elements are Options because the suppressed-diff blocks can materialise
as nil elements, which the source checks for. -/
structure SpotMaintenanceStrategiesTF where
  capacityRebalance : List (Option SpotCapacityRebalanceTF)
  deriving DecidableEq, Repr

structure SpotCapacityRebalance where
  replacementStrategy : Option String
  deriving DecidableEq, Repr

structure SpotMaintenanceStrategies where
  capacityRebalance : Option SpotCapacityRebalance
  deriving DecidableEq, Repr

/-- Source lines 1850-1864. -/
def expandSpotCapacityRebalance (l : List (Option SpotCapacityRebalanceTF)) :
    Option SpotCapacityRebalance :=
  match l with
  | [] => none
  | none :: _ => none
  | some m :: _ =>
    some { replacementStrategy :=
             if m.replacementStrategy ≠ "" then some m.replacementStrategy else none }

/-- Source lines 1836-1848. -/
def expandSpotMaintenanceStrategies (l : List (Option SpotMaintenanceStrategiesTF)) :
    Option SpotMaintenanceStrategies :=
  match l with
  | [] => none
  | none :: _ => none
  | some m :: _ => some { capacityRebalance := expandSpotCapacityRebalance m.capacityRebalance }

/-! ### Create (resourceSpotFleetRequestCreate, source lines 873-1023) -/

/-- The SpotFleetRequestConfigData wire structure, restricted to the
fields resourceSpotFleetRequestCreate assigns.  Launch specifications are
carried abstractly: building them (source lines 1205-1462) issues AMI
describe calls whose results enter the embedding as an Except parameter. -/
structure SpotFleetRequestConfigData where
  clientToken : String
  iamFleetRole : String
  instanceInterruptionBehavior : String
  replaceUnhealthyInstances : Bool
  targetCapacity : Int
  terminateInstancesWithExpiration : Bool
  fleetType : String
  context : Option String
  launchSpecifications : List String
  launchTemplateConfigs : List LaunchTemplateConfig
  excessCapacityTerminationPolicy : Option String
  allocationStrategy : Option String
  instancePoolsToUseCount : Option Int
  spotMaintenanceStrategies : Option SpotMaintenanceStrategies
  spotPrice : Option String
  onDemandTargetCapacity : Option Int
  onDemandAllocationStrategy : Option String
  onDemandMaxTotalPrice : Option String
  validFrom : Option String
  validUntil : Option String
  loadBalancers : List String
  targetGroupArns : List String
  targetCapacityUnitType : Option String
  deriving DecidableEq, Repr

structure RequestSpotFleetInput where
  spotFleetRequestConfig : SpotFleetRequestConfigData
  deriving DecidableEq, Repr

/-- The declarative attribute values resourceSpotFleetRequestCreate reads
from d.Get / d.GetOk, one field per schema attribute it touches, with the
zero value standing for an unset attribute.  clientToken stands for the
fresh id.UniqueId() value. -/
structure CreateArgs where
  clientToken : String
  iamFleetRole : String
  instanceInterruptionBehaviour : String
  replaceUnhealthyInstances : Bool
  targetCapacity : Int
  terminateInstancesWithExpiration : Bool
  fleetType : String
  context : String
  launchSpecificationSet : Bool
  launchTemplateConfig : List LaunchTemplateConfigTF
  excessCapacityTerminationPolicy : String
  allocationStrategy : String
  instancePoolsToUseCount : Int
  spotMaintenanceStrategies : List (Option SpotMaintenanceStrategiesTF)
  spotPrice : String
  onDemandTargetCapacity : Int
  onDemandAllocationStrategy : String
  onDemandMaxTotalPrice : String
  validFrom : String
  validUntil : String
  loadBalancers : List String
  targetGroupArns : List String
  targetCapacityUnitType : String
  waitForFulfillment : Bool
  deriving DecidableEq, Repr

/-- Remote behaviour observed by Create: the RequestSpotFleet result
(after the IAM-propagation retry wrapper) and the outcomes of the two
wait loops, whose internals live outside src and enter as outcomes. -/
structure CreateRemote where
  requestResult : Except String String
  waitCreated : Except String Unit
  waitFulfilled : Except String Unit
  deriving Repr

/-- What a Create call did: the wire create calls it issued, the handle
stored via d.SetId, its diagnostics, and whether it fell through to the
read-back. -/
structure CreateOutcome where
  requestCalls : List RequestSpotFleetInput
  id : Option String
  diags : List Diag
  readPerformed : Bool
  deriving DecidableEq, Repr

/-- The fleet type constant ec2.FleetTypeMaintain. -/
def fleetTypeMaintain : String := "maintain"

/-- The allocation strategy constant ec2.AllocationStrategyLowestPrice. -/
def allocationStrategyLowestPrice : String := "lowestPrice"

/-- The first stage of the config builder, source lines 880-931: every
assignment preceding the spot_maintenance_strategies validity check, in
source order.  Fields the source assigns later are still at their Go
zero value (none / []). -/
def buildSpotFleetConfigFirstStage (a : CreateArgs) (launchSpecs : List String) :
    SpotFleetRequestConfigData :=
  { clientToken := a.clientToken
    iamFleetRole := a.iamFleetRole
    instanceInterruptionBehavior := a.instanceInterruptionBehaviour
    replaceUnhealthyInstances := a.replaceUnhealthyInstances
    targetCapacity := a.targetCapacity
    terminateInstancesWithExpiration := a.terminateInstancesWithExpiration
    fleetType := a.fleetType
    context := if a.context ≠ "" then some a.context else none
    launchSpecifications := if a.launchSpecificationSet then launchSpecs else []
    launchTemplateConfigs :=
      if a.launchTemplateConfig ≠ [] then expandLaunchTemplateConfigs a.launchTemplateConfig
      else []
    excessCapacityTerminationPolicy :=
      if a.excessCapacityTerminationPolicy ≠ "" then some a.excessCapacityTerminationPolicy
      else none
    allocationStrategy :=
      if a.allocationStrategy ≠ "" then some a.allocationStrategy
      else some allocationStrategyLowestPrice
    instancePoolsToUseCount :=
      if a.instancePoolsToUseCount ≠ 0 ∧ a.instancePoolsToUseCount ≠ 1 then
        some a.instancePoolsToUseCount
      else none
    spotMaintenanceStrategies :=
      if a.spotMaintenanceStrategies ≠ [] then
        expandSpotMaintenanceStrategies a.spotMaintenanceStrategies
      else none
    spotPrice := none
    onDemandTargetCapacity := none
    onDemandAllocationStrategy := none
    onDemandMaxTotalPrice := none
    validFrom := none
    validUntil := none
    loadBalancers := []
    targetGroupArns := []
    targetCapacityUnitType := none }

/-- The second stage of the config builder, source lines 933-991: the
assignments after the validity check.  valid_from and valid_until are
carried as their RFC3339 strings. -/
def buildSpotFleetConfigSecondStage (a : CreateArgs) (c : SpotFleetRequestConfigData) :
    SpotFleetRequestConfigData :=
  { c with
    spotPrice := if a.spotPrice ≠ "" then some a.spotPrice else none
    onDemandTargetCapacity := some a.onDemandTargetCapacity
    onDemandAllocationStrategy :=
      if a.onDemandAllocationStrategy ≠ "" then some a.onDemandAllocationStrategy else none
    onDemandMaxTotalPrice :=
      if a.onDemandMaxTotalPrice ≠ "" then some a.onDemandMaxTotalPrice else none
    validFrom := if a.validFrom ≠ "" then some a.validFrom else none
    validUntil := if a.validUntil ≠ "" then some a.validUntil else none
    loadBalancers := a.loadBalancers
    targetGroupArns := a.targetGroupArns
    targetCapacityUnitType :=
      if a.targetCapacityUnitType ≠ "" then some a.targetCapacityUnitType else none }

/-- resourceSpotFleetRequestCreate, source lines 873-1023.
launchSpecsBuild is the outcome of buildSpotFleetLaunchSpecifications
(consulted only when launch_specification is set); remote carries the
RequestSpotFleet and wait outcomes.  The read-back at line 1022 is
recorded as readPerformed. -/
def resourceSpotFleetRequestCreate (a : CreateArgs)
    (launchSpecsBuild : Except String (List String)) (remote : CreateRemote) : CreateOutcome :=
  match (if a.launchSpecificationSet then launchSpecsBuild else Except.ok []) with
  | Except.error e =>
    { requestCalls := [], id := none
      diags := [mkError ("creating EC2 Spot Fleet Request: " ++ e)], readPerformed := false }
  | Except.ok launchSpecs =>
    let c1 := buildSpotFleetConfigFirstStage a launchSpecs
    -- Source lines 925-931: the invalid combination is logged as a WARN
    -- and the function returns its (empty) diagnostics.
    if a.fleetType ≠ fleetTypeMaintain ∧ c1.spotMaintenanceStrategies.isSome then
      { requestCalls := [], id := none, diags := [], readPerformed := false }
    else
      let input : RequestSpotFleetInput :=
        { spotFleetRequestConfig := buildSpotFleetConfigSecondStage a c1 }
      match remote.requestResult with
      | Except.error e =>
        { requestCalls := [input], id := none
          diags := [mkError ("creating EC2 Spot Fleet Request: " ++ e)]
          readPerformed := false }
      | Except.ok rid =>
        match remote.waitCreated with
        | Except.error e =>
          { requestCalls := [input], id := some rid
            diags := [mkError ("waiting for EC2 Spot Fleet Request (" ++ rid ++
              ") create: " ++ e)]
            readPerformed := false }
        | Except.ok _ =>
          if a.waitForFulfillment then
            match remote.waitFulfilled with
            | Except.error e =>
              { requestCalls := [input], id := some rid
                diags := [mkError ("waiting for EC2 Spot Fleet Request (" ++ rid ++
                  ") fulfillment: " ++ e)]
                readPerformed := false }
            | Except.ok _ =>
              { requestCalls := [input], id := some rid, diags := [], readPerformed := true }
          else
            { requestCalls := [input], id := some rid, diags := [], readPerformed := true }

/-! ### Read (resourceSpotFleetRequestRead, source lines 1025-1109) -/

/-- The error classes of FindSpotFleetRequestByID as the read path
distinguishes them: tfresource.NotFound versus anything else. -/
inductive ReadErr where
  | notFound
  | other (msg : String)
  deriving DecidableEq, Repr

/-- The remote object FindSpotFleetRequestByID returns: the request
state plus its config.  The long run of d.Set calls in the source copies
this object into state attribute by attribute; the embedding records the
stored object whole. -/
structure SpotFleetRequestObj where
  spotFleetRequestState : String
  config : SpotFleetRequestConfigData
  deriving DecidableEq, Repr

structure ReadOutcome where
  id : Option String
  stored : Option SpotFleetRequestObj
  diags : List Diag
  deriving DecidableEq, Repr

/-- resourceSpotFleetRequestRead, source lines 1025-1109.  isNew is
d.IsNewResource(); rid is d.Id(); find is the FindSpotFleetRequestByID
outcome; specsConv is the outcome of launchSpecsToSet (source line 1063),
which issues remote AMI lookups and therefore enters as a parameter. -/
def resourceSpotFleetRequestRead (isNew : Bool) (rid : String)
    (find : Except ReadErr SpotFleetRequestObj) (specsConv : Except String Unit) : ReadOutcome :=
  match find with
  | Except.error e =>
    -- Source line 1031: the not-found branch requires a non-new resource.
    if ¬isNew ∧ e = ReadErr.notFound then
      { id := none, stored := none, diags := [] }
    else
      { id := some rid, stored := none
        diags := [mkError ("reading EC2 Spot Fleet Request (" ++ rid ++ ")")] }
  | Except.ok obj =>
    match specsConv with
    | Except.error _ =>
      { id := some rid, stored := none
        diags := [mkError ("reading EC2 Spot Fleet Request (" ++ rid ++
          ") launch specifications")] }
    | Except.ok _ =>
      { id := some rid, stored := some obj, diags := [] }

/-! ### Update (resourceSpotFleetRequestUpdate, source lines 1111-1146) -/

structure ModifySpotFleetRequestInput where
  spotFleetRequestId : String
  targetCapacity : Option Int
  onDemandTargetCapacity : Option Int
  excessCapacityTerminationPolicy : Option String
  deriving DecidableEq, Repr

/-- The update-relevant resource data: the handle, the set of attribute
keys whose planned value differs from the last-read state (d.HasChange),
and the current values of the three mutable attributes. -/
structure UpdateArgs where
  id : String
  changed : List String
  targetCapacity : Int
  onDemandTargetCapacity : Int
  excessCapacityTerminationPolicy : String
  deriving DecidableEq, Repr

structure UpdateRemote where
  modifyResult : Except String Unit
  waitUpdated : Except String Unit
  deriving Repr

structure UpdateOutcome where
  modifyCalls : List ModifySpotFleetRequestInput
  waited : Bool
  readPerformed : Bool
  diags : List Diag
  deriving DecidableEq, Repr

/-- d.HasChange for one attribute key. -/
def hasChange (a : UpdateArgs) (k : String) : Bool := a.changed.contains k

/-- d.HasChangesExcept(names.AttrTags, names.AttrTagsAll), source
line 1116. -/
def hasChangesExcept (a : UpdateArgs) : Bool :=
  a.changed.any (fun k => !(k == "tags") && !(k == "tags_all"))

/-- The ModifySpotFleetRequestInput the source assembles at lines
1117-1133: each field is filled exactly when its attribute has changed
(for excess_capacity_termination_policy additionally only when GetOk
holds, i.e. the value is non-empty). -/
def buildModifyInput (a : UpdateArgs) : ModifySpotFleetRequestInput :=
  { spotFleetRequestId := a.id
    targetCapacity :=
      if hasChange a "target_capacity" then some a.targetCapacity else none
    onDemandTargetCapacity :=
      if hasChange a "on_demand_target_capacity" then some a.onDemandTargetCapacity else none
    excessCapacityTerminationPolicy :=
      if hasChange a "excess_capacity_termination_policy" ∧
         a.excessCapacityTerminationPolicy ≠ "" then
        some a.excessCapacityTerminationPolicy
      else none }

/-- resourceSpotFleetRequestUpdate, source lines 1111-1146.  The final
read-back (line 1145) happens on every path that leaves the function
normally and is recorded as readPerformed. -/
def resourceSpotFleetRequestUpdate (a : UpdateArgs) (remote : UpdateRemote) : UpdateOutcome :=
  if hasChangesExcept a then
    let input := buildModifyInput a
    match remote.modifyResult with
    | Except.error e =>
      { modifyCalls := [input], waited := false, readPerformed := false
        diags := [mkError ("updating EC2 Spot Fleet Request (" ++ a.id ++ "): " ++ e)] }
    | Except.ok _ =>
      match remote.waitUpdated with
      | Except.error e =>
        { modifyCalls := [input], waited := true, readPerformed := false
          diags := [mkError ("waiting for EC2 Spot Fleet Request (" ++ a.id ++
            ") update: " ++ e)] }
      | Except.ok _ =>
        { modifyCalls := [input], waited := true, readPerformed := true, diags := [] }
  else
    { modifyCalls := [], waited := false, readPerformed := true, diags := [] }

/-- The top-level schema attributes marked ForceNew in the schema map
(source lines 58-867). -/
def spotFleetRequestForceNewAttrs : List String :=
  ["allocation_strategy", "context", "fleet_type", "iam_fleet_role",
   "instance_interruption_behaviour", "instance_pools_to_use_count",
   "launch_specification", "launch_template_config", "load_balancers",
   "on_demand_allocation_strategy", "on_demand_max_total_price",
   "replace_unhealthy_instances", "spot_price", "target_capacity_unit_type",
   "target_group_arns", "terminate_instances_with_expiration",
   "valid_from", "valid_until"]

/-- Modelled from the spec: the terraform-plugin-sdk dispatch that
consults the ForceNew schema flags is code this repository vendors but
which is not under src (src holds only the schema declarations that
drive it).  Per the spec, an immutable-field change is rejected before
any API call is made: a plan that changes a ForceNew attribute is turned
into replacement and is never routed to the Update function. -/
def applyUpdate (a : UpdateArgs) (remote : UpdateRemote) : UpdateOutcome :=
  if a.changed.any (fun k => spotFleetRequestForceNewAttrs.contains k) then
    { modifyCalls := [], waited := false, readPerformed := false
      diags := [mkError "attribute change forces replacement of the resource"] }
  else
    resourceSpotFleetRequestUpdate a remote

/-! ### Delete (resourceSpotFleetRequestDelete, source lines 1148-1203) -/

/-- Modelled from the spec: nullable.Bool (internal/sdkv2/types/nullable)
is code of this repository that is not under src.  Its ValueBool returns
the parsed value together with a null flag: the empty string is null,
any other string is parsed with Go strconv.ParseBool semantics, a parse
failure yielding the zero value false (the error return is discarded at
the call site, source line 1154). -/
def nullableBoolValueBool (s : String) : Bool × Bool :=
  if s = "" then (false, true)
  else if s ∈ ["1", "t", "T", "TRUE", "true", "True"] then (true, false)
  else (false, false)

/-- The effective TerminateInstances flag, source lines 1152-1156:
terminate_instances_with_expiration, overridden by
terminate_instances_on_delete whenever that nullable attribute is
non-null. -/
def deleteTerminateInstances (tiwe : Bool) (tiod : String) : Bool :=
  let vb := nullableBoolValueBool tiod
  if !vb.2 then vb.1 else tiwe

structure CancelSpotFleetRequestsInput where
  spotFleetRequestIds : List String
  terminateInstances : Bool
  deriving DecidableEq, Repr

/-- The CancelSpotFleetRequests outcome as the delete path classifies it
after CancelSpotFleetRequestsError folds the per-request batch errors in
(source lines 1159-1166): success, the fleet request is already gone
(ec2.CancelBatchErrorCodeFleetRequestIdDoesNotExist), or any other
error. -/
inductive CancelResult where
  | ok
  | fleetRequestIdDoesNotExist
  | err (msg : String)
  deriving DecidableEq, Repr

structure DeleteArgs where
  id : String
  terminateInstancesWithExpiration : Bool
  terminateInstancesOnDelete : String
  deriving DecidableEq, Repr

structure DeleteOutcome where
  cancelCalls : List CancelSpotFleetRequestsInput
  pollCalls : Nat
  diags : List Diag
  deriving DecidableEq, Repr

/-- Modelled from the spec: tfresource.RetryUntilNotFound is code of
this repository that is not under src.  Per the spec State Poller
contract it repolls the callback until it reports NotFound (here: the
active-instance count reaches zero, source lines 1191-1193) or the
timeout elapses.  counts lists the instance counts observed at
successive polls within the timeout window; the result is the number of
polls consumed when a zero is reached, and none when the window closes
with the count still nonzero. -/
def retryUntilNotFound : List Nat → Option Nat
  | [] => none
  | c :: rest => if c = 0 then some 1 else (retryUntilNotFound rest).map (· + 1)

/-- resourceSpotFleetRequestDelete, source lines 1148-1203. -/
def resourceSpotFleetRequestDelete (a : DeleteArgs) (cancelResult : CancelResult)
    (counts : List Nat) : DeleteOutcome :=
  let terminateInstances :=
    deleteTerminateInstances a.terminateInstancesWithExpiration a.terminateInstancesOnDelete
  let cancelCall : CancelSpotFleetRequestsInput :=
    { spotFleetRequestIds := [a.id], terminateInstances := terminateInstances }
  match cancelResult with
  | CancelResult.fleetRequestIdDoesNotExist =>
    { cancelCalls := [cancelCall], pollCalls := 0, diags := [] }
  | CancelResult.err e =>
    { cancelCalls := [cancelCall], pollCalls := 0
      diags := [mkError ("cancelling EC2 Spot Fleet Request (" ++ a.id ++ "): " ++ e)] }
  | CancelResult.ok =>
    -- Source lines 1176-1179: only wait for instance termination if requested.
    if !terminateInstances then
      { cancelCalls := [cancelCall], pollCalls := 0, diags := [] }
    else
      match retryUntilNotFound counts with
      | some polls => { cancelCalls := [cancelCall], pollCalls := polls, diags := [] }
      | none =>
        { cancelCalls := [cancelCall], pollCalls := counts.length
          diags := [mkError ("waiting for EC2 Spot Fleet Request (" ++ a.id ++
            ") active instance count to reach 0")] }

/-! ### Concrete inputs used by the witness and counterexample theorems -/

/-- A well-formed maintain-type configuration with no optional blocks. -/
def baseCreateArgs : CreateArgs :=
  { clientToken := "terraform-20240101"
    iamFleetRole := "arn:aws:iam::123456789012:role/fleet"
    instanceInterruptionBehaviour := "terminate"
    replaceUnhealthyInstances := false
    targetCapacity := 2
    terminateInstancesWithExpiration := false
    fleetType := "maintain"
    context := ""
    launchSpecificationSet := false
    launchTemplateConfig := []
    excessCapacityTerminationPolicy := ""
    allocationStrategy := ""
    instancePoolsToUseCount := 1
    spotMaintenanceStrategies := []
    spotPrice := ""
    onDemandTargetCapacity := 0
    onDemandAllocationStrategy := ""
    onDemandMaxTotalPrice := ""
    validFrom := ""
    validUntil := ""
    loadBalancers := []
    targetGroupArns := []
    targetCapacityUnitType := ""
    waitForFulfillment := false }

/-- Remote behaviour where the create call succeeds and the create wait
times out. -/
def c2Remote : CreateRemote :=
  { requestResult := Except.ok "sfr-1"
    waitCreated := Except.error "timeout while waiting for state to become active"
    waitFulfilled := Except.ok () }

/-- A request-type configuration that sets spot_maintenance_strategies. -/
def c9CreateArgs : CreateArgs :=
  { baseCreateArgs with
    fleetType := "request"
    spotMaintenanceStrategies :=
      [some { capacityRebalance := [some { replacementStrategy := "launch" }] }] }

def c9Remote : CreateRemote :=
  { requestResult := Except.ok "sfr-9", waitCreated := Except.ok ()
    waitFulfilled := Except.ok () }

def updateRemoteOk : UpdateRemote := { modifyResult := Except.ok (), waitUpdated := Except.ok () }

/-- An update in which only the tags attribute differs. -/
def c4Args : UpdateArgs :=
  { id := "sfr-1", changed := ["tags"], targetCapacity := 4, onDemandTargetCapacity := 0
    excessCapacityTerminationPolicy := "Default" }

/-- An update that changes target_capacity only. -/
def c5Args : UpdateArgs :=
  { id := "sfr-1", changed := ["target_capacity"], targetCapacity := 4
    onDemandTargetCapacity := 0, excessCapacityTerminationPolicy := "Default" }

/-- An update that changes the ForceNew attribute fleet_type. -/
def c8Args : UpdateArgs :=
  { id := "sfr-1", changed := ["fleet_type"], targetCapacity := 3, onDemandTargetCapacity := 0
    excessCapacityTerminationPolicy := "" }

/-- A delete whose terminate_instances_on_delete attribute is the
non-null string true. -/
def c7DeleteArgs : DeleteArgs :=
  { id := "sfr-1", terminateInstancesWithExpiration := false
    terminateInstancesOnDelete := "true" }

/-- A delete where terminate_instances_on_delete is non-null false while
terminate_instances_with_expiration is true. -/
def c10DeleteArgs : DeleteArgs :=
  { id := "sfr-1", terminateInstancesWithExpiration := true
    terminateInstancesOnDelete := "false" }

/-- An instance_requirements block that explicitly sets only
network_bandwidth_gbps, min 1 and max 2. -/
def c6InstanceRequirements : InstanceRequirementsTF :=
  { acceleratorCount := none
    acceleratorManufacturers := []
    acceleratorNames := []
    acceleratorTotalMemoryMib := none
    acceleratorTypes := []
    allowedInstanceTypes := []
    bareMetal := ""
    baselineEbsBandwidthMbps := none
    burstablePerformance := ""
    cpuManufacturers := []
    excludedInstanceTypes := []
    instanceGenerations := []
    localStorage := ""
    localStorageTypes := []
    memoryGibPerVcpu := none
    memoryMib := none
    networkBandwidthGbps := some { max := 2, min := 1 }
    networkInterfaceCount := none
    onDemandMaxPricePercentageOverLowestPrice := 0
    requireHibernateSupport := false
    spotMaxPricePercentageOverLowestPrice := 0
    totalLocalStorageGb := none
    vcpuCount := none }

def c6Override : LaunchTemplateOverridesTF :=
  { availabilityZone := ""
    instanceRequirements := some c6InstanceRequirements
    instanceType := ""
    priority := 0
    spotPrice := ""
    subnetId := ""
    weightedCapacity := 0 }

/-- A launch_template_config whose single override explicitly sets
network_bandwidth_gbps. -/
def c6Config : LaunchTemplateConfigTF :=
  { launchTemplateSpecification := some { id := "lt-12345", name := "", version := "1" }
    overrides := [c6Override] }

end SpotFleetRequest

namespace SpotFleetRequest

/-! ### Helper lemmas -/

theorem roundtrip_string (s : String) : (if s ≠ "" then some s else none).getD "" = s := by
  by_cases h : s = "" <;> simp [h]

theorem roundtrip_int (n : Int) : (if n ≠ 0 then some n else none).getD 0 = n := by
  by_cases h : n = 0 <;> simp [h]

theorem roundtrip_rat (q : Rat) : (if q ≠ 0 then some q else none).getD 0 = q := by
  by_cases h : q = 0 <;> simp [h]

theorem roundtrip_stringList (l : List String) : (if l ≠ [] then some l else none).getD [] = l := by
  by_cases h : l = [] <;> simp [h]

theorem roundtrip_bool (b : Bool) : (if b then some b else none).getD false = b := by
  cases b <;> rfl

theorem map_roundtrip_acceleratorCount (o : Option IntRangeTF) :
    (o.map expandAcceleratorCount).map flattenIntRange = o := by
  cases o <;> rfl

theorem map_roundtrip_acceleratorTotalMemoryMiB (o : Option IntRangeTF) :
    (o.map expandAcceleratorTotalMemoryMiB).map flattenIntRange = o := by
  cases o <;> rfl

theorem map_roundtrip_baselineEBSBandwidthMbps (o : Option IntRangeTF) :
    (o.map expandBaselineEBSBandwidthMbps).map flattenIntRange = o := by
  cases o <;> rfl

theorem map_roundtrip_memoryGiBPerVCPU (o : Option RatRangeTF) :
    (o.map expandMemoryGiBPerVCPU).map flattenRatRange = o := by
  cases o <;> rfl

theorem map_roundtrip_memoryMiB (o : Option IntRangeTF) :
    (o.map expandMemoryMiB).map flattenIntRange = o := by
  cases o <;> rfl

theorem map_roundtrip_networkInterfaceCount (o : Option IntRangeTF) :
    (o.map expandNetworkInterfaceCount).map flattenIntRange = o := by
  cases o <;> rfl

theorem map_roundtrip_totalLocalStorageGB (o : Option RatRangeTF) :
    (o.map expandTotalLocalStorageGB).map flattenRatRange = o := by
  cases o <;> rfl

theorem map_roundtrip_vCPUCountRange (o : Option IntRangeTF) :
    (o.map expandVCPUCountRange).map flattenIntRange = o := by
  cases o <;> rfl

/-- Away from the dropped network_bandwidth_gbps attribute, the
instance_requirements expand/flatten pair is a round trip. -/
theorem roundtrip_instanceRequirements (t : InstanceRequirementsTF)
    (h : t.networkBandwidthGbps = none) :
    flattenInstanceRequirements (expandInstanceRequirements t) = t := by
  obtain ⟨ac, am, an, atm, aty, ait, bm, bebm, bp, cm, eit, ig, ls, lst, mgpv, mm, nbg, nic,
    odmp, rhsup, smp, tlsg, vc⟩ := t
  simp only at h
  subst h
  simp only [expandInstanceRequirements, flattenInstanceRequirements, Option.map_none,
    InstanceRequirementsTF.mk.injEq, map_roundtrip_acceleratorCount,
    map_roundtrip_acceleratorTotalMemoryMiB, map_roundtrip_baselineEBSBandwidthMbps,
    map_roundtrip_memoryGiBPerVCPU, map_roundtrip_memoryMiB,
    map_roundtrip_networkInterfaceCount, map_roundtrip_totalLocalStorageGB,
    map_roundtrip_vCPUCountRange, roundtrip_string, roundtrip_int, roundtrip_stringList,
    roundtrip_bool]
  simp

/-- The overrides expand/flatten pair is a round trip whenever the
override does not set network_bandwidth_gbps. -/
theorem roundtrip_launchTemplateOverrides (t : LaunchTemplateOverridesTF)
    (h : ∀ ir, t.instanceRequirements = some ir → ir.networkBandwidthGbps = none) :
    flattenLaunchTemplateOverrides (expandLaunchTemplateOverrides t) = t := by
  obtain ⟨az, ir, it, pr, sp, si, wc⟩ := t
  simp only [expandLaunchTemplateOverrides, flattenLaunchTemplateOverrides,
    LaunchTemplateOverridesTF.mk.injEq, roundtrip_string, roundtrip_rat]
  refine ⟨trivial, ?_, trivial, trivial, trivial, trivial, trivial⟩
  cases ir with
  | none => rfl
  | some v => exact congrArg some (roundtrip_instanceRequirements v (h v rfl))

theorem roundtrip_fleetLaunchTemplateSpecification (t : FleetLaunchTemplateSpecificationTF) :
    flattenFleetLaunchTemplateSpecificationForSpotFleetRequest
      (expandFleetLaunchTemplateSpecification t) = t := by
  obtain ⟨i, n, v⟩ := t
  simp only [expandFleetLaunchTemplateSpecification,
    flattenFleetLaunchTemplateSpecificationForSpotFleetRequest,
    FleetLaunchTemplateSpecificationTF.mk.injEq, roundtrip_string]

/-- The launch_template_config expand/flatten pair is a round trip on
every configuration that does not set network_bandwidth_gbps. -/
theorem roundtrip_launchTemplateConfig (c : LaunchTemplateConfigTF)
    (h : ∀ o ∈ c.overrides, ∀ ir, o.instanceRequirements = some ir →
      ir.networkBandwidthGbps = none) :
    flattenLaunchTemplateConfig (expandLaunchTemplateConfig c) = c := by
  obtain ⟨spec, ovr⟩ := c
  simp only [expandLaunchTemplateConfig, flattenLaunchTemplateConfig,
    LaunchTemplateConfigTF.mk.injEq]
  constructor
  · cases spec with
    | none => rfl
    | some v => exact congrArg some (roundtrip_fleetLaunchTemplateSpecification v)
  · by_cases hl : ovr = []
    · subst hl
      rfl
    · rw [if_pos hl]
      simp only [expandLaunchTemplateOverrideses, flattenLaunchTemplateOverrideses,
        List.map_map]
      have : ∀ o ∈ ovr, (flattenLaunchTemplateOverrides ∘ expandLaunchTemplateOverrides) o = o := by
        intro o ho
        exact roundtrip_launchTemplateOverrides o (h o ho)
      calc ovr.map (flattenLaunchTemplateOverrides ∘ expandLaunchTemplateOverrides)
          = ovr.map id := List.map_congr_left this
        _ = ovr := List.map_id ovr

theorem retryUntilNotFound_isSome_iff (l : List Nat) :
    (retryUntilNotFound l).isSome = true ↔ 0 ∈ l := by
  induction l with
  | nil => simp [retryUntilNotFound]
  | cons c rest ih =>
    by_cases hc : c = 0
    · subst hc
      simp [retryUntilNotFound]
    · simp [retryUntilNotFound, hc, Option.isSome_map, ih, Ne.symm hc]

/-! ### Claim theorems -/

/-- Claim C1: when the remote cancel call reports that the fleet request
is already gone (CancelBatchErrorCodeFleetRequestIdDoesNotExist), Delete
returns success with no error diagnostics and performs no instance
polling; hence a second Delete on the same handle succeeds as a no-op. -/
theorem delete_idempotent_on_not_found (a : DeleteArgs) (counts : List Nat) :
    (resourceSpotFleetRequestDelete a CancelResult.fleetRequestIdDoesNotExist counts).diags = []
      ∧ (resourceSpotFleetRequestDelete a
          CancelResult.fleetRequestIdDoesNotExist counts).pollCalls = 0 := by
  constructor <;> rfl

/-- Claim C2 counterexample: with the remote create succeeding and the
create wait timing out, Create stores the handle but returns an
error-severity (fatal) diagnostic, contradicting the claim that the
operation does not fail fatally. -/
theorem create_wait_timeout_counterexample :
    (resourceSpotFleetRequestCreate baseCreateArgs (Except.ok []) c2Remote).id = some "sfr-1" ∧
    hasError (resourceSpotFleetRequestCreate baseCreateArgs (Except.ok []) c2Remote).diags
      = true := by
  constructor <;> rfl

/-- Claim C2 (amended): when the remote create succeeds but the wait for
the created state fails, Create has already stored the assigned handle
(d.SetId precedes the wait), but it returns a fatal error diagnostic,
not a non-fatal warning, and does not fall through to the read-back. -/
theorem create_wait_timeout_is_fatal_but_id_assigned (a : CreateArgs)
    (lsb : Except String (List String)) (r : CreateRemote) (specs : List String)
    (rid e : String)
    (hls : (if a.launchSpecificationSet then lsb else Except.ok []) = Except.ok specs)
    (hblock : ¬(a.fleetType ≠ fleetTypeMaintain ∧
      ((buildSpotFleetConfigFirstStage a specs).spotMaintenanceStrategies).isSome = true))
    (hreq : r.requestResult = Except.ok rid)
    (hwait : r.waitCreated = Except.error e) :
    resourceSpotFleetRequestCreate a lsb r =
      { requestCalls := [{ spotFleetRequestConfig :=
            buildSpotFleetConfigSecondStage a (buildSpotFleetConfigFirstStage a specs) }]
        id := some rid
        diags := [mkError ("waiting for EC2 Spot Fleet Request (" ++ rid ++ ") create: " ++ e)]
        readPerformed := false } := by
  simp only [resourceSpotFleetRequestCreate, hls, hreq, hwait]
  rw [if_neg hblock]

/-- Claim C2 witness for the amended theorem at a concrete input. -/
theorem create_wait_timeout_witness :
    resourceSpotFleetRequestCreate baseCreateArgs (Except.ok []) c2Remote =
      { requestCalls := [{ spotFleetRequestConfig :=
            (buildSpotFleetConfigSecondStage baseCreateArgs
              (buildSpotFleetConfigFirstStage baseCreateArgs [])) }]
        id := some "sfr-1"
        diags := [mkError ("waiting for EC2 Spot Fleet Request (" ++ "sfr-1" ++ ") create: " ++
          "timeout while waiting for state to become active")]
        readPerformed := false } :=
  create_wait_timeout_is_fatal_but_id_assigned baseCreateArgs (Except.ok []) c2Remote []
    "sfr-1" "timeout while waiting for state to become active" rfl (by decide) rfl rfl

/-- Claim C3 counterexample: during creation (d.IsNewResource true) a
not-found from the remote makes Read keep the handle and return a fatal
error, contradicting the claim quantified over every Read. -/
theorem read_not_found_counterexample :
    (resourceSpotFleetRequestRead true "sfr-1" (Except.error ReadErr.notFound)
        (Except.ok ())).id = some "sfr-1" ∧
    hasError (resourceSpotFleetRequestRead true "sfr-1" (Except.error ReadErr.notFound)
        (Except.ok ())).diags = true := by
  constructor <;> rfl

/-- Claim C3 (amended): for every Read on a resource that is not newly
created, a not-found from the remote clears the stored handle and
returns success with no diagnostics, so the stale handle is not
reused. -/
theorem read_not_found_clears_handle (rid : String) (sc : Except String Unit) :
    resourceSpotFleetRequestRead false rid (Except.error ReadErr.notFound) sc =
      { id := none, stored := none, diags := [] } := by
  rfl

/-- Claim C4: when no attribute beyond tags and tags_all has changed,
Update issues zero wire-level modify calls and does not wait, but still
performs the read-back before returning, with no diagnostics. -/
theorem update_unchanged_is_noop_but_reads (a : UpdateArgs) (r : UpdateRemote)
    (h : ∀ k ∈ a.changed, k = "tags" ∨ k = "tags_all") :
    resourceSpotFleetRequestUpdate a r =
      { modifyCalls := [], waited := false, readPerformed := true, diags := [] } := by
  have hfalse : hasChangesExcept a = false := by
    unfold hasChangesExcept
    rw [List.any_eq_false]
    intro k hk
    rcases h k hk with h1 | h1 <;> subst h1 <;> simp
  simp [resourceSpotFleetRequestUpdate, hfalse]

/-- Claim C4 witness: an update where only tags changed. -/
theorem update_unchanged_witness :
    resourceSpotFleetRequestUpdate c4Args updateRemoteOk =
      { modifyCalls := [], waited := false, readPerformed := true, diags := [] } :=
  update_unchanged_is_noop_but_reads c4Args updateRemoteOk (by decide)

/-- Claim C5: when Update does issue a wire-level modify, the single
request it sends carries, besides the handle, exactly the changed fields
among target_capacity, on_demand_target_capacity and
excess_capacity_termination_policy: a field is present only if its
attribute changed, and every unchanged field is absent. -/
theorem update_sends_only_changed_fields (a : UpdateArgs) (r : UpdateRemote)
    (h : hasChangesExcept a = true) :
    (resourceSpotFleetRequestUpdate a r).modifyCalls = [buildModifyInput a] ∧
    (buildModifyInput a).spotFleetRequestId = a.id ∧
    (buildModifyInput a).targetCapacity.isSome = hasChange a "target_capacity" ∧
    (buildModifyInput a).onDemandTargetCapacity.isSome
      = hasChange a "on_demand_target_capacity" ∧
    ((buildModifyInput a).excessCapacityTerminationPolicy.isSome = true →
      hasChange a "excess_capacity_termination_policy" = true) ∧
    (hasChange a "excess_capacity_termination_policy" = false →
      (buildModifyInput a).excessCapacityTerminationPolicy = none) := by
  refine ⟨?_, rfl, ?_, ?_, ?_, ?_⟩
  · simp only [resourceSpotFleetRequestUpdate, h, if_true]
    rcases r with ⟨mr, wu⟩
    cases mr <;> cases wu <;> rfl
  · unfold buildModifyInput
    by_cases hc : hasChange a "target_capacity" <;> simp [hc]
  · unfold buildModifyInput
    by_cases hc : hasChange a "on_demand_target_capacity" <;> simp [hc]
  · intro hs
    unfold buildModifyInput at hs
    simp only at hs
    by_cases hc : (hasChange a "excess_capacity_termination_policy" ∧
        a.excessCapacityTerminationPolicy ≠ "")
    · exact hc.1
    · rw [if_neg hc] at hs
      simp at hs
  · intro hzero
    unfold buildModifyInput
    simp only
    rw [if_neg]
    rintro ⟨h1, _⟩
    rw [hzero] at h1
    cases h1

/-- Claim C5 witness: an update changing target_capacity only. -/
theorem update_sends_only_changed_fields_witness :
    hasChangesExcept c5Args = true ∧
    (resourceSpotFleetRequestUpdate c5Args updateRemoteOk).modifyCalls
      = [buildModifyInput c5Args] :=
  ⟨by decide, (update_sends_only_changed_fields c5Args updateRemoteOk (by decide)).1⟩

/-- Claim C6 (code bug at a concrete input): the schema declares
network_bandwidth_gbps under instance_requirements, but
expandInstanceRequirements never reads it, so flattening the wire object
produced by expanding a configuration that explicitly sets it returns
the configuration with that field cleared: the round trip loses an
explicitly-set, not server-computed field. -/
theorem expand_drops_networkBandwidthGbps :
    flattenLaunchTemplateConfig (expandLaunchTemplateConfig c6Config) =
      { c6Config with overrides :=
          ([{ c6Override with instanceRequirements :=
              (some { c6InstanceRequirements with networkBandwidthGbps := none }) }]) } ∧
    flattenLaunchTemplateConfig (expandLaunchTemplateConfig c6Config) ≠ c6Config := by
  constructor
  · rfl
  · decide

/-- Claim C7: for a Delete with instance cleanup requested, after the
cancel succeeds the operation polls the active-instance count and
returns success exactly when the count reaches zero within the timeout
window; a count still nonzero when the window closes yields a fatal
error. -/
theorem delete_cleanup_success_iff_zero (a : DeleteArgs) (counts : List Nat)
    (h : deleteTerminateInstances a.terminateInstancesWithExpiration
      a.terminateInstancesOnDelete = true) :
    (0 ∈ counts →
      (resourceSpotFleetRequestDelete a CancelResult.ok counts).diags = []) ∧
    (0 ∉ counts →
      hasError (resourceSpotFleetRequestDelete a CancelResult.ok counts).diags = true) := by
  constructor
  · intro hz
    have hs : (retryUntilNotFound counts).isSome = true :=
      (retryUntilNotFound_isSome_iff counts).2 hz
    obtain ⟨p, hp⟩ := Option.isSome_iff_exists.1 hs
    simp [resourceSpotFleetRequestDelete, h, hp]
  · intro hz
    have hn : retryUntilNotFound counts = none := by
      cases hr : retryUntilNotFound counts with
      | none => rfl
      | some p =>
        exact absurd ((retryUntilNotFound_isSome_iff counts).1 (by simp [hr])) hz
    simp [resourceSpotFleetRequestDelete, h, hn, hasError, mkError]

/-- Claim C7 witness: cleanup requested through
terminate_instances_on_delete, instance count sequence 2, 1, 0. -/
theorem delete_cleanup_witness :
    deleteTerminateInstances c7DeleteArgs.terminateInstancesWithExpiration
      c7DeleteArgs.terminateInstancesOnDelete = true ∧
    (resourceSpotFleetRequestDelete c7DeleteArgs CancelResult.ok [2, 1, 0]).diags = [] :=
  ⟨by decide, (delete_cleanup_success_iff_zero c7DeleteArgs [2, 1, 0] (by decide)).1 (by decide)⟩

/-- Claim C8: an update whose plan changes a ForceNew (immutable) schema
attribute is rejected before any wire-level call: no modify call, no
wait, no read-back, and a fatal diagnostic. -/
theorem update_forceNew_rejected_before_api (a : UpdateArgs) (r : UpdateRemote)
    (h : ∃ k ∈ a.changed, k ∈ spotFleetRequestForceNewAttrs) :
    applyUpdate a r =
      { modifyCalls := [], waited := false, readPerformed := false
        diags := [mkError "attribute change forces replacement of the resource"] } ∧
    hasError (applyUpdate a r).diags = true := by
  have hb : (a.changed.any (fun k => spotFleetRequestForceNewAttrs.contains k)) = true := by
    obtain ⟨k, hk, hin⟩ := h
    rw [List.any_eq_true]
    exact ⟨k, hk, List.elem_eq_true_of_mem hin⟩
  have h1 : applyUpdate a r =
      { modifyCalls := [], waited := false, readPerformed := false
        diags := [mkError "attribute change forces replacement of the resource"] } := by
    unfold applyUpdate
    rw [if_pos hb]
  exact ⟨h1, by rw [h1]; rfl⟩

/-- Claim C8 witness: an update changing fleet_type. -/
theorem update_forceNew_witness :
    applyUpdate c8Args updateRemoteOk =
      { modifyCalls := [], waited := false, readPerformed := false
        diags := [mkError "attribute change forces replacement of the resource"] } :=
  (update_forceNew_rejected_before_api c8Args updateRemoteOk
    ⟨"fleet_type", by decide, by decide⟩).1

/-- Claim C9: a Create whose configuration sets
spot_maintenance_strategies while fleet_type is not maintain returns
with no diagnostics at all, issues no remote create call and assigns no
handle: the resource is silently not created. -/
theorem create_invalid_maintenance_strategies_noop (a : CreateArgs)
    (lsb : Except String (List String)) (r : CreateRemote) (specs : List String)
    (hls : (if a.launchSpecificationSet then lsb else Except.ok []) = Except.ok specs)
    (hft : a.fleetType ≠ fleetTypeMaintain)
    (hsms : ((buildSpotFleetConfigFirstStage a specs).spotMaintenanceStrategies).isSome
      = true) :
    resourceSpotFleetRequestCreate a lsb r =
      { requestCalls := [], id := none, diags := [], readPerformed := false } := by
  simp only [resourceSpotFleetRequestCreate, hls]
  rw [if_pos ⟨hft, hsms⟩]

/-- Claim C9 witness: a request-type fleet with capacity-rebalance
maintenance strategies. -/
theorem create_invalid_maintenance_strategies_witness :
    resourceSpotFleetRequestCreate c9CreateArgs (Except.ok []) c9Remote =
      { requestCalls := [], id := none, diags := [], readPerformed := false } :=
  create_invalid_maintenance_strategies_noop c9CreateArgs (Except.ok []) c9Remote []
    rfl (by decide) (by decide)

/-- Claim C10: the TerminateInstances flag sent with the cancel call is
terminate_instances_on_delete whenever that nullable attribute is
non-null and terminate_instances_with_expiration otherwise, and when the
resulting flag is false a successful cancel returns immediately with no
instance polling. -/
theorem delete_terminate_flag_decides (a : DeleteArgs) (cr : CancelResult)
    (counts : List Nat) :
    ((nullableBoolValueBool a.terminateInstancesOnDelete).2 = false →
      deleteTerminateInstances a.terminateInstancesWithExpiration a.terminateInstancesOnDelete
        = (nullableBoolValueBool a.terminateInstancesOnDelete).1) ∧
    ((nullableBoolValueBool a.terminateInstancesOnDelete).2 = true →
      deleteTerminateInstances a.terminateInstancesWithExpiration a.terminateInstancesOnDelete
        = a.terminateInstancesWithExpiration) ∧
    ((resourceSpotFleetRequestDelete a cr counts).cancelCalls =
      [{ spotFleetRequestIds := [a.id]
         terminateInstances := deleteTerminateInstances a.terminateInstancesWithExpiration
           a.terminateInstancesOnDelete }]) ∧
    (deleteTerminateInstances a.terminateInstancesWithExpiration a.terminateInstancesOnDelete
        = false →
      resourceSpotFleetRequestDelete a CancelResult.ok counts =
        { cancelCalls := [{ spotFleetRequestIds := [a.id], terminateInstances := false }]
          pollCalls := 0, diags := [] }) := by
  refine ⟨?_, ?_, ?_, ?_⟩
  · intro hn
    simp [deleteTerminateInstances, hn]
  · intro hn
    simp [deleteTerminateInstances, hn]
  · cases cr with
    | fleetRequestIdDoesNotExist => rfl
    | err m => rfl
    | ok =>
      simp only [resourceSpotFleetRequestDelete]
      split
      · rfl
      · split <;> rfl
  · intro hf
    simp [resourceSpotFleetRequestDelete, hf]

/-- Claim C10 witness: terminate_instances_on_delete false overrides
terminate_instances_with_expiration true, and Delete returns right after
the cancel with no polling. -/
theorem delete_terminate_flag_witness :
    deleteTerminateInstances c10DeleteArgs.terminateInstancesWithExpiration
      c10DeleteArgs.terminateInstancesOnDelete = false ∧
    resourceSpotFleetRequestDelete c10DeleteArgs CancelResult.ok [7] =
      { cancelCalls := [{ spotFleetRequestIds := ["sfr-1"], terminateInstances := false }]
        pollCalls := 0, diags := [] } :=
  ⟨by decide,
    (delete_terminate_flag_decides c10DeleteArgs CancelResult.ok [7]).2.2.2 (by decide)⟩

end SpotFleetRequest
